import Mathlib

/-!
Shallow embedding of the media-transcription pipeline
(`src/config.py`, `src/utils.py`, `src/google_processor.py`, `src/app.py`).

Python strings are Lean `String`s; `pathlib.Path` values are the strings
they were built from, with `name` / `stem` / `suffix` modelled below.
External effects (the ffmpeg subprocess, the remote Gemini call, file
writes) are made explicit: an environment record supplies each external
outcome, and the pipeline functions return the list of external calls
they perform (the trace) alongside their `Except` result.
-/

/-- Python `str.split()` whitespace: space, tab, newline, carriage return,
vertical tab, form feed (the ASCII whitespace class used by `split`). -/
def isPythonSpace (c : Char) : Bool :=
  c = ' ' || c = '\t' || c = '\n' || c = '\r' || c = '\x0b' || c = '\x0c'

/-- Split a character list at every character satisfying `p`, keeping empty
fields (the helper carries the current field, reversed). -/
def splitCharsAux (p : Char → Bool) : List Char → List Char → List (List Char)
  | [], acc => [acc.reverse]
  | c :: rest, acc =>
      if p c then acc.reverse :: splitCharsAux p rest []
      else splitCharsAux p rest (c :: acc)

/-- Split a character list at every character satisfying `p`. -/
def splitChars (p : Char → Bool) (l : List Char) : List (List Char) :=
  splitCharsAux p l []

/-- Python `s.split()` with no arguments: split on whitespace and drop the
empty fields, leaving the maximal runs of non-whitespace. -/
def py_split_ws (s : String) : List String :=
  ((splitChars isPythonSpace s.data).filter (fun w => w ≠ [])).map
    (fun w => (⟨w⟩ : String))

/-- Python `len(s.split())`, the whitespace-token count used for `word_count`. -/
def py_word_count (s : String) : Nat :=
  (py_split_ws s).length

/-- Python `pathlib.Path(f).name`: the final path component ('/'-separated;
empty components and '.' components are dropped by pathlib's parser). -/
def pyName (f : String) : String :=
  ⟨((((splitChars (fun c => c = '/') f.data)).filter
      (fun s => decide (s ≠ [] ∧ s ≠ ['.']))).getLast?).getD []⟩

/-- Split a path component's characters at its last dot, as
`pathlib` does for `stem`/`suffix`: the suffix is nonempty exactly when the
last dot is neither the first nor the last character. Returns
`(stem chars, suffix chars)`. -/
def py_splitext (l : List Char) : List Char × List Char :=
  match l.reverse.dropWhile (fun c => c != '.') with
  | [] => (l, [])
  | _ :: stemRev =>
      if stemRev.isEmpty || (l.reverse.takeWhile (fun c => c != '.')).isEmpty then
        (l, [])
      else
        (stemRev.reverse, '.' :: (l.reverse.takeWhile (fun c => c != '.')).reverse)

/-- Python `pathlib.Path(f).stem`. -/
def pyStem (f : String) : String :=
  ⟨(py_splitext (pyName f).data).1⟩

/-- Python `pathlib.Path(f).suffix`. -/
def pySuffix (f : String) : String :=
  ⟨(py_splitext (pyName f).data).2⟩

/-! Configuration constants from `src/config.py`. `TEMP_DIR` is the
project-relative temp directory; the `/` path join appends a separator. -/

def TEMP_DIR : String := "temp"

def SUPPORTED_VIDEO_FORMATS : List String :=
  [".mp4", ".avi", ".mov", ".mkv", ".wmv", ".flv"]

def SUPPORTED_AUDIO_FORMATS : List String :=
  [".mp3", ".wav", ".m4a", ".aac", ".ogg", ".flac"]

def GEMINI_MODEL : String := "gemini-flash-latest"

/-! File classifier from `src/utils.py`. -/

/-- Python `str.lower()` on an extension string (ASCII case mapping, which
covers every configured extension). -/
def py_lower (s : String) : String :=
  ⟨s.data.map Char.toLower⟩

/-- `utils.get_file_extension`: lowercase file extension. -/
def get_file_extension (filename : String) : String :=
  py_lower (pySuffix filename)

/-- `utils.is_video_file`. -/
def is_video_file (filename : String) : Bool :=
  decide (get_file_extension filename ∈ SUPPORTED_VIDEO_FORMATS)

/-- `utils.is_audio_file`. -/
def is_audio_file (filename : String) : Bool :=
  decide (get_file_extension filename ∈ SUPPORTED_AUDIO_FORMATS)

/-- Media kind tag: classification outcome of a filename. -/
inductive MediaKind where
  | video
  | audio
  | unsupported
deriving DecidableEq

/-- The classification branching of `process_media_file`
(`google_processor.py` lines 232-237): video is tested first, then audio,
all other filenames are unsupported. -/
def classify (filename : String) : MediaKind :=
  if is_video_file filename then .video
  else if is_audio_file filename then .audio
  else .unsupported

/-- `utils.generate_unique_filename`: the timestamp (`datetime.now()`
formatted `%Y%m%d_%H%M%S`) is passed explicitly. -/
def generate_unique_filename (timestamp : String) (original_filename : String)
    (pre : String) : String :=
  pre ++ pyStem original_filename ++ "_" ++ timestamp ++ pySuffix original_filename

/-- Shape of a `%Y%m%d_%H%M%S` timestamp: eight digits, an underscore,
six digits (fifteen characters in all). -/
def isTimestampFormat (t : String) : Bool :=
  t.data.length == 15 && (t.data.take 8).all (fun c => c.isDigit)
    && ((t.data.drop 8).take 1 == ['_'])
    && (t.data.drop 9).all (fun c => c.isDigit)

/-! The transcript record built by `GeminiProcessor.transcribe_audio`
(`google_processor.py` lines 72-80). `media_type` and `original_file` are
absent from the dict until `process_video` / `process_audio` attach them,
modelled as `Option` fields defaulting to `none`. The `duration` value is
written as the Python literal `None`; its element type never matters
because it is never populated. -/
structure TranscriptRecord where
  text : String
  language : String
  duration : Option Nat
  word_count : Nat
  processed_at : String
  source_file : String
  model : String
  media_type : Option String := none
  original_file : Option String := none
deriving DecidableEq

/-- External calls a pipeline run performs, in order: an ffmpeg extraction
(`extract_audio_from_video`), a Gemini `generate_content` transcription
request carrying the binary audio part's mime type, and a
`cleanup_temp_files` deletion. -/
inductive MediaEvent where
  | extract (video_path : String)
  | transcribe (audio_path : String) (mime_type : String)
  | cleanup (path : String)
deriving DecidableEq

/-- Errors raised by the pipeline: a nonzero ffmpeg exit
(`subprocess.CalledProcessError`), an exception from the remote Gemini
call, or the `ValueError` that `process_media_file` raises with the
unrecognized extension. -/
inductive ProcError where
  | ffmpegError
  | transcriptionError
  | unsupportedType (suffix : String)
deriving DecidableEq

/-- Outcomes of the external world during one processing request:
whether ffmpeg exits zero, whether a (possibly partial) output file exists
at ffmpeg's target path even on failure, the text the remote transcription
call returns (`none` means the call raises), and the wall-clock reading
used for `processed_at`. -/
structure GeminiEnv where
  extractOk : Bool
  extractCreatesFile : Bool
  transcriptText : Option String
  now : String
deriving DecidableEq

/-- Target path of `utils.extract_audio_from_video`:
`TEMP_DIR / (video_path.stem + "_audio." + output_format)`. -/
def extract_audio_output_path (video_path : String) (output_format : String) : String :=
  TEMP_DIR ++ "/" ++ (pyStem video_path ++ "_audio." ++ output_format)

/-- `GeminiProcessor.transcribe_audio`: reads the audio bytes, submits one
`generate_content` request whose binary part is tagged with the hardcoded
mime type `"audio/mp3"`, and on success shapes the response into the
result dict. Returns the trace of external calls with the result. -/
def transcribe_audio (env : GeminiEnv) (audio_path : String) :
    List MediaEvent × Except ProcError TranscriptRecord :=
  ([.transcribe audio_path "audio/mp3"],
   match env.transcriptText with
   | none => .error .transcriptionError
   | some transcript_text =>
       .ok { text := transcript_text
             language := "auto-detected"
             duration := none
             word_count := py_word_count transcript_text
             processed_at := env.now
             source_file := pyName audio_path
             model := GEMINI_MODEL })

/-- `GeminiProcessor.process_video`: extract audio, transcribe, attach
`media_type`/`original_file`; the `finally` block invokes
`cleanup_temp_files(audio_path)` only when `audio_path` is not `None`,
i.e. only when the extraction call returned. -/
def process_video (env : GeminiEnv) (video_path : String) :
    List MediaEvent × Except ProcError TranscriptRecord :=
  let audio_path := extract_audio_output_path video_path "mp3"
  if env.extractOk then
    match transcribe_audio env audio_path with
    | (evs, .ok r) =>
        (.extract video_path :: (evs ++ [.cleanup audio_path]),
         .ok { r with media_type := some "video",
                      original_file := some (pyName video_path) })
    | (evs, .error e) =>
        (.extract video_path :: (evs ++ [.cleanup audio_path]), .error e)
  else
    ([.extract video_path], .error .ffmpegError)

/-- `GeminiProcessor.process_audio`: transcribe directly and attach
`media_type`/`original_file`; errors are re-raised. -/
def process_audio (env : GeminiEnv) (audio_path : String) :
    List MediaEvent × Except ProcError TranscriptRecord :=
  match transcribe_audio env audio_path with
  | (evs, .ok r) =>
      (evs, .ok { r with media_type := some "audio",
                         original_file := some (pyName audio_path) })
  | (evs, .error e) => (evs, .error e)

/-- `process_media_file` (`google_processor.py` lines 219-237): dispatch on
`is_video_file(file_path.name)` / `is_audio_file(file_path.name)`, raising
`ValueError(f"Unsupported file type: \x7bfile_path.suffix\x7d")` otherwise. -/
def process_media_file (env : GeminiEnv) (file_path : String) :
    List MediaEvent × Except ProcError TranscriptRecord :=
  if is_video_file (pyName file_path) then process_video env file_path
  else if is_audio_file (pyName file_path) then process_audio env file_path
  else ([], .error (.unsupportedType (pySuffix file_path)))

/-- Files ffmpeg wrote into the temp directory during one `process_video`
run: its output file exists when the extraction succeeded, and may exist
(partially written) even when ffmpeg exited nonzero. -/
def created_temp_files (env : GeminiEnv) (video_path : String) : List String :=
  if env.extractOk || env.extractCreatesFile then
    [extract_audio_output_path video_path "mp3"]
  else []

/-- Temp files of a `process_video` run that outlive the request: created
by ffmpeg but never passed to an invocation of `cleanup_temp_files`. -/
def video_temp_leftover (env : GeminiEnv) (video_path : String) : List String :=
  (created_temp_files env video_path).filter
    (fun p => !((process_video env video_path).1.contains (.cleanup p)))

/-- Event discriminators used to phrase trace properties. -/
def is_extract : MediaEvent → Bool
  | .extract _ => true
  | _ => false

def is_transcribe : MediaEvent → Bool
  | .transcribe _ _ => true
  | _ => false

def is_cleanup : MediaEvent → Bool
  | .cleanup _ => true
  | _ => false

/-- Every transcription request in the trace is preceded by an extraction. -/
def extract_precedes_transcribe (tr : List MediaEvent) : Prop :=
  ∀ (i : Nat) (e : MediaEvent), tr[i]? = some e → is_transcribe e = true →
    ∃ (j : Nat) (e2 : MediaEvent), j < i ∧ tr[j]? = some e2 ∧ is_extract e2 = true

deriving instance DecidableEq for Except

/-! Summarization (`GeminiProcessor.summarize_text`). The three instruction
templates are the literal triple-quoted strings of the source, and
`prompts.get(summary_type, prompts["brief"])` is the lookup with its
permissive default. -/

def brief_prompt : String :=
  "\n                Provide a brief summary of the following text in 3-5 sentences.\n                Focus on the main points and key takeaways.\n                "

def detailed_prompt : String :=
  "\n                Provide a detailed summary of the following text.\n                Include all important concepts, examples, and explanations.\n                Format it as clear bullet points or paragraphs.\n                "

def study_guide_prompt : String :=
  "\n                Create a study guide from the following text for college students.\n                Include:\n                - Key concepts and definitions\n                - Important points to remember\n                - Examples if mentioned\n                - Potential exam questions\n                \n                Format it clearly with sections and bullet points.\n                "

/-- The `prompts.get(summary_type, prompts["brief"])` dictionary lookup. -/
def prompts_get (summary_type : String) : String :=
  if summary_type = "brief" then brief_prompt
  else if summary_type = "detailed" then detailed_prompt
  else if summary_type = "study_guide" then study_guide_prompt
  else brief_prompt

/-- The full prompt `summarize_text` submits:
`f"\x7bprompt\x7d\n\nText to summarize:\n\x7btext\x7d"`. -/
def summarize_full_prompt (text : String) (summary_type : String) : String :=
  prompts_get summary_type ++ "\n\nText to summarize:\n" ++ text

/-! App layer (`src/app.py`): session state and the process-button handler. -/

/-- Session state: the ordered `st.session_state.transcripts` list, plus
the `summary_<idx>` side entries stored as an association list. -/
structure AppState where
  transcripts : List TranscriptRecord
  summaries : List (Nat × String)
deriving DecidableEq

/-- External outcomes of one app interaction: the pipeline environment,
the staging timestamp, whether the staging write and the transcript-save
write succeed, and the text the remote summarization call returns. -/
structure AppEnv where
  gemini : GeminiEnv
  stagingTimestamp : String
  stageOk : Bool
  saveTranscriptOk : Bool
  summaryText : String
deriving DecidableEq

/-- Path produced by `save_uploaded_file(uploaded_file, TEMP_DIR)`:
`TEMP_DIR / generate_unique_filename(uploaded_file.name, "upload_")`. -/
def staged_file_path (aenv : AppEnv) (uploaded_name : String) : String :=
  TEMP_DIR ++ "/" ++ generate_unique_filename aenv.stagingTimestamp uploaded_name "upload_"

/-- The process-button handler (`app.py` lines 120-157): stage the upload,
run `process_media_file`, save the transcript, and only then append the
record to `st.session_state.transcripts`; any exception is caught by the
surrounding `except` and leaves the session list untouched. -/
def process_button_step (aenv : AppEnv) (uploaded_name : String) (st : AppState) :
    AppState :=
  if aenv.stageOk then
    match (process_media_file aenv.gemini (staged_file_path aenv uploaded_name)).2 with
    | .error _ => st
    | .ok r =>
        if aenv.saveTranscriptOk then
          { st with transcripts := st.transcripts ++ [r] }
        else st
  else st

/-- The per-transcript summarize-button handler (`app.py` lines 207-211):
calls `summarize_text(transcript_text, "study_guide")` and stores the
result under `summary_<idx>` in the session, touching nothing else. -/
def generate_summary_step (aenv : AppEnv) (st : AppState) (idx : Nat) : AppState :=
  { st with summaries := (idx, aenv.summaryText) :: st.summaries }

-- Sanity checks for the path model (Python semantics).
example : pySuffix "lecture.MP4" = ".MP4" := by decide
example : get_file_extension "lecture.MP4" = ".mp4" := by decide
example : pySuffix ".bashrc" = "" := by decide
example : pySuffix "a." = "" := by decide
example : pyStem "archive.tar.gz" = "archive.tar" := by decide
example : pyName "temp/upload_a.mp3" = "upload_a.mp3" := by decide
example : classify "Movie.MKV" = .video := by decide
example : classify "song.flac" = .audio := by decide
example : classify "notes.txt" = .unsupported := by decide
example : classify "no_extension" = .unsupported := by decide
example : py_word_count "hello  world " = 2 := by decide

-- Sanity checks for the pipeline model on concrete environments.
example :
    process_media_file ⟨true, true, some "hi there", "T0"⟩ "lec.mp4"
      = ([.extract "lec.mp4", .transcribe "temp/lec_audio.mp3" "audio/mp3",
          .cleanup "temp/lec_audio.mp3"],
         .ok { text := "hi there", language := "auto-detected", duration := none,
               word_count := 2, processed_at := "T0",
               source_file := "lec_audio.mp3", model := "gemini-flash-latest",
               media_type := some "video", original_file := some "lec.mp4" }) := by
  decide

example :
    process_media_file ⟨true, true, some "hi", "T0"⟩ "talk.wav"
      = ([.transcribe "talk.wav" "audio/mp3"],
         .ok { text := "hi", language := "auto-detected", duration := none,
               word_count := 1, processed_at := "T0",
               source_file := "talk.wav", model := "gemini-flash-latest",
               media_type := some "audio", original_file := some "talk.wav" }) := by
  decide

example :
    process_media_file ⟨true, true, some "hi", "T0"⟩ "notes.txt"
      = ([], .error (.unsupportedType ".txt")) := by decide

example :
    video_temp_leftover ⟨false, true, some "hi", "T0"⟩ "lec.mp4"
      = ["temp/lec_audio.mp3"] := by decide

example :
    video_temp_leftover ⟨true, false, some "hi", "T0"⟩ "lec.mp4" = [] := by decide

/-! Helper lemmas. -/

/-- The configured video and audio extension sets share no element. -/
lemma video_audio_formats_disjoint :
    ∀ x ∈ SUPPORTED_VIDEO_FORMATS, x ∉ SUPPORTED_AUDIO_FORMATS := by decide

lemma is_video_file_iff (f : String) :
    is_video_file f = true ↔ get_file_extension f ∈ SUPPORTED_VIDEO_FORMATS := by
  simp [is_video_file]

lemma is_audio_file_iff (f : String) :
    is_audio_file f = true ↔ get_file_extension f ∈ SUPPORTED_AUDIO_FORMATS := by
  simp [is_audio_file]

/-- A filename that classifies as audio does not classify as video. -/
lemma audio_not_video (f : String) (h : is_audio_file f = true) :
    is_video_file f = false := by
  have hm : get_file_extension f ∈ SUPPORTED_AUDIO_FORMATS :=
    (is_audio_file_iff f).mp h
  have hv : get_file_extension f ∉ SUPPORTED_VIDEO_FORMATS := fun hv =>
    video_audio_formats_disjoint _ hv hm
  simpa [is_video_file] using hv

lemma dropWhile_head_false (p : Char → Bool) :
    ∀ (l : List Char) (c : Char) (rest : List Char),
      l.dropWhile p = c :: rest → p c = false := by
  intro l
  induction l with
  | nil => intro c rest h; simp [List.dropWhile] at h
  | cons a tl ih =>
      intro c rest h
      by_cases hp : p a = true
      · rw [List.dropWhile_cons_of_pos hp] at h
        exact ih c rest h
      · rw [List.dropWhile_cons_of_neg hp] at h
        cases h
        simpa using hp

/-- The stem and suffix halves of `py_splitext` concatenate back to the
component they were split from. -/
lemma py_splitext_append (l : List Char) :
    (py_splitext l).1 ++ (py_splitext l).2 = l := by
  cases hps : py_splitext l with
  | mk st su =>
  show st ++ su = l
  unfold py_splitext at hps
  cases h : l.reverse.dropWhile (fun c => c != '.') with
  | nil =>
      rw [h] at hps
      injection hps with h1 h2
      subst h1; subst h2
      simp
  | cons c stemRev =>
      rw [h] at hps
      dsimp only at hps
      by_cases h2 : (stemRev.isEmpty
          || (l.reverse.takeWhile (fun c => c != '.')).isEmpty) = true
      · rw [if_pos h2] at hps
        injection hps with ha hb
        subst ha; subst hb
        simp
      · rw [if_neg h2] at hps
        injection hps with ha hb
        subst ha; subst hb
        have hc : c = '.' := by
          have := dropWhile_head_false (fun c => c != '.') l.reverse c stemRev h
          simpa using this
        have hrev : stemRev.reverse ++ '.' :: (l.reverse.takeWhile (fun c => c != '.')).reverse
            = (l.reverse.takeWhile (fun c => c != '.') ++ (c :: stemRev)).reverse := by
          subst hc
          simp [List.reverse_append]
        rw [hrev, ← h, List.takeWhile_append_dropWhile, List.reverse_reverse]

/-- The Python stem and suffix of a filename concatenate to its basename. -/
lemma pyStem_append_pySuffix (f : String) :
    pyStem f ++ pySuffix f = pyName f := by
  apply String.ext
  rw [String.data_append]
  exact py_splitext_append (pyName f).data

/-- Closed form of `process_video`. -/
lemma process_video_eq (env : GeminiEnv) (vp : String) :
    process_video env vp
      = if env.extractOk then
          ([.extract vp, .transcribe (extract_audio_output_path vp "mp3") "audio/mp3",
            .cleanup (extract_audio_output_path vp "mp3")],
           match env.transcriptText with
           | none => .error .transcriptionError
           | some txt =>
               .ok { text := txt, language := "auto-detected", duration := none,
                     word_count := py_word_count txt, processed_at := env.now,
                     source_file := pyName (extract_audio_output_path vp "mp3"),
                     model := GEMINI_MODEL, media_type := some "video",
                     original_file := some (pyName vp) })
        else ([.extract vp], .error .ffmpegError) := by
  cases hE : env.extractOk <;> cases hT : env.transcriptText <;>
    simp [process_video, transcribe_audio, hE, hT]

/-- Closed form of `process_audio`. -/
lemma process_audio_eq (env : GeminiEnv) (ap : String) :
    process_audio env ap
      = ([.transcribe ap "audio/mp3"],
         match env.transcriptText with
         | none => .error .transcriptionError
         | some txt =>
             .ok { text := txt, language := "auto-detected", duration := none,
                   word_count := py_word_count txt, processed_at := env.now,
                   source_file := pyName ap, model := GEMINI_MODEL,
                   media_type := some "audio", original_file := some (pyName ap) }) := by
  cases hT : env.transcriptText <;> simp [process_audio, transcribe_audio, hT]

/-- Trace of the video path: ffmpeg, then the transcription request, then
the cleanup call, regardless of transcription success; only the ffmpeg
call when extraction fails. -/
lemma process_video_trace (env : GeminiEnv) (vp : String) :
    (process_video env vp).1
      = if env.extractOk then
          [.extract vp, .transcribe (extract_audio_output_path vp "mp3") "audio/mp3",
           .cleanup (extract_audio_output_path vp "mp3")]
        else [.extract vp] := by
  rw [process_video_eq]
  cases hE : env.extractOk <;> simp

/-- Trace of the audio path: the transcription request alone. -/
lemma process_audio_trace (env : GeminiEnv) (ap : String) :
    (process_audio env ap).1 = [.transcribe ap "audio/mp3"] := by
  rw [process_audio_eq]

/-- A trace whose first event is an extraction satisfies
`extract_precedes_transcribe`. -/
lemma extract_head_precedes (v : String) (tl : List MediaEvent) :
    extract_precedes_transcribe (.extract v :: tl) := by
  intro i e hi ht
  match i with
  | 0 =>
      have he : e = .extract v := by simpa using hi.symm
      subst he
      simp [is_transcribe] at ht
  | (n + 1) =>
      exact ⟨0, .extract v, Nat.succ_pos n, by simp, rfl⟩

/-- On success, `process_video` returns the transcription record extended
with the video media type and the original video filename. -/
lemma process_video_ok_record (env : GeminiEnv) (vp : String) (r : TranscriptRecord)
    (h : (process_video env vp).2 = .ok r) :
    ∃ txt, env.transcriptText = some txt
      ∧ r = { text := txt, language := "auto-detected", duration := none,
              word_count := py_word_count txt, processed_at := env.now,
              source_file := pyName (extract_audio_output_path vp "mp3"),
              model := GEMINI_MODEL, media_type := some "video",
              original_file := some (pyName vp) } := by
  rw [process_video_eq] at h
  cases hE : env.extractOk <;> rw [hE] at h <;> simp at h
  cases hT : env.transcriptText with
  | none => rw [hT] at h; simp at h
  | some txt =>
      rw [hT] at h
      dsimp only at h
      injection h with h1
      exact ⟨txt, rfl, h1.symm⟩

/-- On success, `process_audio` returns the transcription record extended
with the audio media type and the audio filename. -/
lemma process_audio_ok_record (env : GeminiEnv) (ap : String) (r : TranscriptRecord)
    (h : (process_audio env ap).2 = .ok r) :
    ∃ txt, env.transcriptText = some txt
      ∧ r = { text := txt, language := "auto-detected", duration := none,
              word_count := py_word_count txt, processed_at := env.now,
              source_file := pyName ap, model := GEMINI_MODEL,
              media_type := some "audio", original_file := some (pyName ap) } := by
  rw [process_audio_eq] at h
  cases hT : env.transcriptText with
  | none => rw [hT] at h; simp at h
  | some txt =>
      rw [hT] at h
      dsimp only at h
      injection h with h1
      exact ⟨txt, rfl, h1.symm⟩

/-- Staged filenames built from equal-length timestamps and equal-length
extensions agree componentwise when they agree as strings. -/
lemma staged_name_inj (pre f1 f2 t1 t2 : String)
    (ht1 : t1.data.length = 15) (ht2 : t2.data.length = 15)
    (he : (pySuffix f1).data.length = (pySuffix f2).data.length)
    (h : generate_unique_filename t1 f1 pre = generate_unique_filename t2 f2 pre) :
    (pyStem f1).data = (pyStem f2).data ∧ t1.data = t2.data
      ∧ (pySuffix f1).data = (pySuffix f2).data := by
  have hd := congrArg String.data h
  simp only [generate_unique_filename, String.data_append, List.append_assoc] at hd
  have hd2 := List.append_cancel_left hd
  have hlen : (pyStem f1).data.length = (pyStem f2).data.length := by
    have hl := congrArg List.length hd2
    simp only [List.length_append, ht1, ht2, he] at hl
    omega
  obtain ⟨hstem, hrest⟩ := List.append_inj hd2 hlen
  have hrest2 : t1.data ++ (pySuffix f1).data = t2.data ++ (pySuffix f2).data :=
    List.append_cancel_left hrest
  obtain ⟨ht, hsuf⟩ := List.append_inj hrest2 (ht1.trans ht2.symm)
  exact ⟨hstem, ht, hsuf⟩

/-! Claim theorems. -/

/-- C2: classification is pure and total (a Lean function of the filename
alone), decided by the lower-cased extension: a suffix in the configured
video set classifies as video, one in the configured audio set as audio,
any other suffix (including none) as unsupported; classification depends
only on the lower-cased extension, and the two configured sets are
disjoint. -/
theorem C2_classification_by_lowercased_extension (f : String) :
    (get_file_extension f ∈ SUPPORTED_VIDEO_FORMATS → classify f = .video)
    ∧ (get_file_extension f ∈ SUPPORTED_AUDIO_FORMATS → classify f = .audio)
    ∧ (get_file_extension f ∉ SUPPORTED_VIDEO_FORMATS →
        get_file_extension f ∉ SUPPORTED_AUDIO_FORMATS → classify f = .unsupported)
    ∧ (∀ g : String, get_file_extension g = get_file_extension f →
        classify g = classify f)
    ∧ (∀ x ∈ SUPPORTED_VIDEO_FORMATS, x ∉ SUPPORTED_AUDIO_FORMATS) := by
  refine ⟨?_, ?_, ?_, ?_, video_audio_formats_disjoint⟩
  · intro h
    simp [classify, is_video_file, h]
  · intro h
    have hv : get_file_extension f ∉ SUPPORTED_VIDEO_FORMATS := fun hv =>
      video_audio_formats_disjoint _ hv h
    simp [classify, is_video_file, is_audio_file, h, hv]
  · intro h1 h2
    simp [classify, is_video_file, is_audio_file, h1, h2]
  · intro g hg
    simp [classify, is_video_file, is_audio_file, hg]

/-- Witness for C2 at concrete inputs: an upper-cased video extension, an
upper-cased audio extension, an unsupported extension, extension-only
dependence across a directory prefix, and one disjointness instance. -/
theorem C2_classification_witness :
    classify "Movie.MP4" = .video
    ∧ classify "track.OGG" = .audio
    ∧ classify "notes.txt" = .unsupported
    ∧ classify "dir/clip.mp4" = classify "clip.mp4"
    ∧ ".mp4" ∉ SUPPORTED_AUDIO_FORMATS := by
  refine ⟨?_, ?_, ?_, ?_, ?_⟩
  · exact (C2_classification_by_lowercased_extension "Movie.MP4").1 (by decide)
  · exact (C2_classification_by_lowercased_extension "track.OGG").2.1 (by decide)
  · exact (C2_classification_by_lowercased_extension "notes.txt").2.2.1
      (by decide) (by decide)
  · exact (C2_classification_by_lowercased_extension "clip.mp4").2.2.2.1
      "dir/clip.mp4" (by decide)
  · exact (C2_classification_by_lowercased_extension "x").2.2.2.2 ".mp4" (by decide)

/-- C3: for a filename classifying as neither video nor audio,
`process_media_file` produces an empty external-call trace (no extraction
and no transcription is ever attempted) and fails with the `ValueError`
carrying the unrecognized extension. -/
theorem C3_unsupported_fails_before_external_calls (env : GeminiEnv) (fp : String)
    (hv : is_video_file (pyName fp) = false) (ha : is_audio_file (pyName fp) = false) :
    process_media_file env fp = ([], .error (.unsupportedType (pySuffix fp))) := by
  simp [process_media_file, hv, ha]

/-- Witness for C3: a `.txt` upload is rejected with its extension and an
empty trace, under an environment in which every external call would
succeed. -/
theorem C3_unsupported_witness :
    process_media_file ⟨true, true, some "hello", "T0"⟩ "notes.txt"
      = ([], .error (.unsupportedType ".txt")) := by
  have h := C3_unsupported_fails_before_external_calls
    ⟨true, true, some "hello", "T0"⟩ "notes.txt" (by decide) (by decide)
  exact h.trans (by decide)

/-- C10: every record produced by a successful `transcribe_audio` call has
`duration = None` (never populated from the audio) and the literal
language tag `"auto-detected"`. -/
theorem C10_constant_metadata (env : GeminiEnv) (audio_path : String)
    (r : TranscriptRecord) (h : (transcribe_audio env audio_path).2 = .ok r) :
    r.duration = none ∧ r.language = "auto-detected" := by
  unfold transcribe_audio at h
  cases ht : env.transcriptText with
  | none => rw [ht] at h; simp at h
  | some txt =>
      rw [ht] at h
      dsimp only at h
      injection h with h1
      subst h1
      exact ⟨rfl, rfl⟩

/-- Witness for C10 at a concrete successful transcription. -/
theorem C10_constant_metadata_witness :
    ({ text := "hello world", language := "auto-detected", duration := none,
       word_count := 2, processed_at := "T0", source_file := "talk.mp3",
       model := "gemini-flash-latest" } : TranscriptRecord).duration = none
    ∧ ({ text := "hello world", language := "auto-detected", duration := none,
         word_count := 2, processed_at := "T0", source_file := "talk.mp3",
         model := "gemini-flash-latest" } : TranscriptRecord).language
        = "auto-detected" :=
  C10_constant_metadata ⟨true, true, some "hello world", "T0"⟩ "talk.mp3" _ (by decide)

/-- C9: for a style tag outside brief, detailed and study guide,
`summarize_text` builds its prompt from the brief template (the permissive
default of the dictionary lookup) followed by the transcript text, and for
each known tag it uses that tag's fixed template. -/
theorem C9_unknown_style_falls_back_to_brief (tag text : String)
    (h1 : tag ≠ "brief") (h2 : tag ≠ "detailed") (h3 : tag ≠ "study_guide") :
    summarize_full_prompt text tag
        = brief_prompt ++ "\n\nText to summarize:\n" ++ text
    ∧ summarize_full_prompt text "brief"
        = brief_prompt ++ "\n\nText to summarize:\n" ++ text
    ∧ summarize_full_prompt text "detailed"
        = detailed_prompt ++ "\n\nText to summarize:\n" ++ text
    ∧ summarize_full_prompt text "study_guide"
        = study_guide_prompt ++ "\n\nText to summarize:\n" ++ text := by
  refine ⟨?_, by simp [summarize_full_prompt, prompts_get],
          by simp [summarize_full_prompt, prompts_get],
          by simp [summarize_full_prompt, prompts_get]⟩
  simp [summarize_full_prompt, prompts_get, h1, h2, h3]

/-- Witness for C9 at the unknown tag `"bullet_points"`. -/
theorem C9_unknown_style_witness :
    summarize_full_prompt "some transcript" "bullet_points"
      = brief_prompt ++ "\n\nText to summarize:\n" ++ "some transcript" :=
  (C9_unknown_style_falls_back_to_brief "bullet_points" "some transcript"
    (by decide) (by decide) (by decide)).1

/-- C1: a video input runs extraction first (the trace begins with the
ffmpeg call, and every transcription request is preceded by an
extraction), and a successfully returned record carries
`media_type = "video"` and `original_file` equal to the uploaded video's
filename; an audio input performs no extraction at all and the returned
record carries `media_type = "audio"` and `original_file` equal to the
audio filename. -/
theorem C1_media_type_dispatch (env : GeminiEnv) (fp : String) :
    (is_video_file (pyName fp) = true →
      (process_media_file env fp).1.head? = some (.extract fp)
      ∧ extract_precedes_transcribe (process_media_file env fp).1
      ∧ ∀ r : TranscriptRecord, (process_media_file env fp).2 = .ok r →
          r.media_type = some "video" ∧ r.original_file = some (pyName fp))
    ∧ (is_audio_file (pyName fp) = true →
      (∀ e ∈ (process_media_file env fp).1, is_extract e = false)
      ∧ ∀ r : TranscriptRecord, (process_media_file env fp).2 = .ok r →
          r.media_type = some "audio" ∧ r.original_file = some (pyName fp)) := by
  constructor
  · intro hv
    have hpm : process_media_file env fp = process_video env fp := by
      simp [process_media_file, hv]
    rw [hpm]
    refine ⟨?_, ?_, ?_⟩
    · rw [process_video_trace]
      cases hE : env.extractOk <;> simp
    · rw [process_video_trace]
      cases hE : env.extractOk <;> simp <;> exact extract_head_precedes fp _
    · intro r hr
      obtain ⟨txt, -, rfl⟩ := process_video_ok_record env fp r hr
      exact ⟨rfl, rfl⟩
  · intro ha
    have hv := audio_not_video _ ha
    have hpm : process_media_file env fp = process_audio env fp := by
      simp [process_media_file, hv, ha]
    rw [hpm]
    constructor
    · rw [process_audio_trace]
      intro e he
      simp at he
      subst he
      rfl
    · intro r hr
      obtain ⟨txt, -, rfl⟩ := process_audio_ok_record env fp r hr
      exact ⟨rfl, rfl⟩

/-- Witness for C1: a video upload and an audio upload under an
environment whose external calls all succeed. -/
theorem C1_media_type_witness :
    ((process_media_file ⟨true, true, some "hi there", "T0"⟩ "lec.mp4").1.head?
        = some (.extract "lec.mp4"))
    ∧ (∀ r : TranscriptRecord,
        (process_media_file ⟨true, true, some "hi there", "T0"⟩ "lec.mp4").2 = .ok r →
          r.media_type = some "video" ∧ r.original_file = some "lec.mp4")
    ∧ ∀ r : TranscriptRecord,
        (process_media_file ⟨true, true, some "hi there", "T0"⟩ "talk.wav").2 = .ok r →
          r.media_type = some "audio" ∧ r.original_file = some "talk.wav" := by
  have h1 := (C1_media_type_dispatch ⟨true, true, some "hi there", "T0"⟩ "lec.mp4").1
    (by decide)
  have h2 := (C1_media_type_dispatch ⟨true, true, some "hi there", "T0"⟩ "talk.wav").2
    (by decide)
  exact ⟨h1.1, by simpa using h1.2.2, by simpa using h2.2⟩

/-- C4, amended: on the video path cleanup is invoked unconditionally
after the transcription attempt — the trace on a successful extraction is
always extraction, transcription request, cleanup, whether the
transcription succeeds or raises; but on a simulated extraction failure,
while no transcription call occurs, no cleanup is invoked either (the
`finally` block's guard sees `audio_path` still unset), so an
intermediate audio file partially created by the failed ffmpeg run is not
removed. -/
theorem C4_cleanup_after_transcription_amended (env : GeminiEnv) (vp : String) :
    (env.extractOk = true →
      (process_video env vp).1
        = [.extract vp, .transcribe (extract_audio_output_path vp "mp3") "audio/mp3",
           .cleanup (extract_audio_output_path vp "mp3")])
    ∧ (env.extractOk = false →
      (process_video env vp).1 = [.extract vp]
      ∧ (∀ e ∈ (process_video env vp).1, is_transcribe e = false)
      ∧ (∀ e ∈ (process_video env vp).1, is_cleanup e = false)
      ∧ video_temp_leftover env vp
          = if env.extractCreatesFile then [extract_audio_output_path vp "mp3"]
            else []) := by
  constructor
  · intro hE
    rw [process_video_trace, hE]
    simp
  · intro hE
    have htr : (process_video env vp).1 = [.extract vp] := by
      rw [process_video_trace, hE]; simp
    refine ⟨htr, ?_, ?_, ?_⟩
    · rw [htr]; intro e he; simp at he; subst he; rfl
    · rw [htr]; intro e he; simp at he; subst he; rfl
    · unfold video_temp_leftover created_temp_files
      rw [htr, hE]
      cases hC : env.extractCreatesFile <;> simp [List.contains]

/-- Witness for C4 (amended): a succeeding extraction gives the full
three-event trace; a failing extraction gives the bare ffmpeg event and
leaves the partially created audio file behind. -/
theorem C4_cleanup_witness :
    (process_video ⟨true, true, some "hi", "T0"⟩ "clip.mp4").1
      = [.extract "clip.mp4", .transcribe "temp/clip_audio.mp3" "audio/mp3",
         .cleanup "temp/clip_audio.mp3"]
    ∧ (process_video ⟨false, true, some "hi", "T0"⟩ "clip.mp4").1 = [.extract "clip.mp4"]
    ∧ video_temp_leftover ⟨false, true, some "hi", "T0"⟩ "clip.mp4"
        = ["temp/clip_audio.mp3"] := by
  have h1 := (C4_cleanup_after_transcription_amended ⟨true, true, some "hi", "T0"⟩
    "clip.mp4").1 rfl
  have h2 := (C4_cleanup_after_transcription_amended ⟨false, true, some "hi", "T0"⟩
    "clip.mp4").2 rfl
  exact ⟨h1.trans (by decide), h2.1, h2.2.2.2.trans (by decide)⟩

/-- C4, counterexample to the claim as stated: with ffmpeg exiting nonzero
after partially writing its output file, the run performs no cleanup call
at all, and the intermediate audio file survives the request — it is not
removed by the cleanup step. -/
theorem C4_cleanup_counterexample :
    MediaEvent.cleanup "temp/clip_audio.mp3"
        ∉ (process_video ⟨false, true, some "hi", "T0"⟩ "clip.mp4").1
    ∧ video_temp_leftover ⟨false, true, some "hi", "T0"⟩ "clip.mp4"
        = ["temp/clip_audio.mp3"] := by
  decide

/-- C8: every transcription request issued by any `process_media_file` run
tags its binary audio part with the hardcoded mime type `"audio/mp3"`,
whatever the file's actual container or extension. -/
theorem C8_mime_type_hardcoded (env : GeminiEnv) (fp : String) (p m : String)
    (h : MediaEvent.transcribe p m ∈ (process_media_file env fp).1) :
    m = "audio/mp3" := by
  cases hv : is_video_file (pyName fp) with
  | true =>
      have hpm : process_media_file env fp = process_video env fp := by
        simp [process_media_file, hv]
      rw [hpm, process_video_trace] at h
      cases hE : env.extractOk <;> rw [hE] at h <;> simp at h
      exact h.2
  | false =>
      cases ha : is_audio_file (pyName fp) with
      | true =>
          have hpm : process_media_file env fp = process_audio env fp := by
            simp [process_media_file, hv, ha]
          rw [hpm, process_audio_trace] at h
          simp at h
          exact h.2
      | false =>
          have hpm : process_media_file env fp
              = ([], .error (.unsupportedType (pySuffix fp))) := by
            simp [process_media_file, hv, ha]
          rw [hpm] at h
          simp at h

/-- Witness for C8: the audio path of a concrete run issues its request
with mime type audio/mp3. -/
theorem C8_mime_type_witness : "audio/mp3" = "audio/mp3" :=
  C8_mime_type_hardcoded ⟨true, true, some "hi", "T0"⟩ "talk.mp3" "talk.mp3"
    "audio/mp3" (by decide)

/-- C5: every record a successful `process_media_file` run returns has
`word_count` equal to the whitespace-token count of its `text`, and the
summarization interaction stores its output beside the session list
without touching any stored record, so the equality is preserved after
summarization. -/
theorem C5_word_count_recomputable :
    (∀ (env : GeminiEnv) (fp : String) (r : TranscriptRecord),
        (process_media_file env fp).2 = .ok r → r.word_count = py_word_count r.text)
    ∧ ∀ (aenv : AppEnv) (st : AppState) (idx : Nat),
        (generate_summary_step aenv st idx).transcripts = st.transcripts := by
  constructor
  · intro env fp r h
    cases hv : is_video_file (pyName fp) with
    | true =>
        have hpm : process_media_file env fp = process_video env fp := by
          simp [process_media_file, hv]
        rw [hpm] at h
        obtain ⟨txt, -, rfl⟩ := process_video_ok_record env fp r h
        rfl
    | false =>
        cases ha : is_audio_file (pyName fp) with
        | true =>
            have hpm : process_media_file env fp = process_audio env fp := by
              simp [process_media_file, hv, ha]
            rw [hpm] at h
            obtain ⟨txt, -, rfl⟩ := process_audio_ok_record env fp r h
            rfl
        | false =>
            have hpm : process_media_file env fp
                = ([], .error (.unsupportedType (pySuffix fp))) := by
              simp [process_media_file, hv, ha]
            rw [hpm] at h
            simp at h
  · intro aenv st idx
    rfl

/-- Witness for C5: the record of a concrete successful transcription has
`word_count` two for the two-word text, and a concrete summarization step
leaves the session transcripts untouched. -/
theorem C5_word_count_witness :
    ({ text := "hello world", language := "auto-detected", duration := none,
       word_count := 2, processed_at := "T0", source_file := "talk.mp3",
       model := "gemini-flash-latest", media_type := some "audio",
       original_file := some "talk.mp3" } : TranscriptRecord).word_count = 2
    ∧ (generate_summary_step
         ⟨⟨true, true, some "hi", "T0"⟩, "20250101_000000", true, true, "a summary"⟩
         ⟨[], []⟩ 0).transcripts = (⟨[], []⟩ : AppState).transcripts := by
  constructor
  · exact (C5_word_count_recomputable.1 ⟨true, true, some "hello world", "T0"⟩
      "talk.mp3" _ (by decide)).trans (by decide)
  · exact C5_word_count_recomputable.2
      ⟨⟨true, true, some "hi", "T0"⟩, "20250101_000000", true, true, "a summary"⟩
      ⟨[], []⟩ 0

/-- C7: if the transcription step fails (the pipeline returns an error) or
the transcript-saving step fails, the session's ordered transcript list is
exactly what it was before the request: the failed transcript is never
appended. -/
theorem C7_session_unchanged_on_failure (aenv : AppEnv) (uploaded_name : String)
    (st : AppState) :
    (∀ e : ProcError,
        (process_media_file aenv.gemini (staged_file_path aenv uploaded_name)).2
          = .error e →
        (process_button_step aenv uploaded_name st).transcripts = st.transcripts)
    ∧ (aenv.saveTranscriptOk = false →
        (process_button_step aenv uploaded_name st).transcripts = st.transcripts) := by
  constructor
  · intro e he
    unfold process_button_step
    cases hS : aenv.stageOk with
    | false => simp [hS]
    | true => simp [hS, he]
  · intro hsave
    unfold process_button_step
    cases hS : aenv.stageOk with
    | false => simp [hS]
    | true =>
        cases hres : (process_media_file aenv.gemini
            (staged_file_path aenv uploaded_name)).2 with
        | error e => simp [hS, hres]
        | ok r => simp [hS, hres, hsave]

/-- Witness for C7: a failing transcription and a failing transcript save,
each against a session already holding one transcript. -/
theorem C7_session_unchanged_witness :
    (process_button_step
        ⟨⟨true, true, none, "T0"⟩, "20250101_000000", true, true, "s"⟩ "talk.mp3"
        ⟨[{ text := "old", language := "auto-detected", duration := none,
            word_count := 1, processed_at := "T0", source_file := "old.mp3",
            model := "gemini-flash-latest" }], []⟩).transcripts
      = [{ text := "old", language := "auto-detected", duration := none,
           word_count := 1, processed_at := "T0", source_file := "old.mp3",
           model := "gemini-flash-latest" }]
    ∧ (process_button_step
        ⟨⟨true, true, some "hi", "T0"⟩, "20250101_000000", true, false, "s"⟩ "talk.mp3"
        ⟨[{ text := "old", language := "auto-detected", duration := none,
            word_count := 1, processed_at := "T0", source_file := "old.mp3",
            model := "gemini-flash-latest" }], []⟩).transcripts
      = [{ text := "old", language := "auto-detected", duration := none,
           word_count := 1, processed_at := "T0", source_file := "old.mp3",
           model := "gemini-flash-latest" }] := by
  constructor
  · exact (C7_session_unchanged_on_failure
      ⟨⟨true, true, none, "T0"⟩, "20250101_000000", true, true, "s"⟩ "talk.mp3"
      ⟨[{ text := "old", language := "auto-detected", duration := none,
          word_count := 1, processed_at := "T0", source_file := "old.mp3",
          model := "gemini-flash-latest" }], []⟩).1 .transcriptionError (by decide)
  · exact (C7_session_unchanged_on_failure
      ⟨⟨true, true, some "hi", "T0"⟩, "20250101_000000", true, false, "s"⟩ "talk.mp3"
      ⟨[{ text := "old", language := "auto-detected", duration := none,
          word_count := 1, processed_at := "T0", source_file := "old.mp3",
          model := "gemini-flash-latest" }], []⟩).2 rfl

/-- C6, amended: staging composes the staged filename as
`<prefix><stem>_<timestamp><ext>` from the original filename's stem and
extension and a second-granularity timestamp; two uploads whose original
filenames have distinct basenames AND extensions of equal length always
stage to distinct filenames, regardless of timestamps. Without the
equal-extension-length proviso the claim fails: distinct filenames whose
extensions differ in length can collide under different timestamps (see
the counterexample), in addition to the documented identical-name
same-second collision. -/
theorem C6_staging_collision_amended (pre f1 f2 t1 t2 : String)
    (h1 : isTimestampFormat t1 = true) (h2 : isTimestampFormat t2 = true)
    (he : (pySuffix f1).length = (pySuffix f2).length)
    (hne : pyName f1 ≠ pyName f2) :
    generate_unique_filename t1 f1 pre ≠ generate_unique_filename t2 f2 pre
    ∧ generate_unique_filename t1 f1 pre
        = pre ++ pyStem f1 ++ "_" ++ t1 ++ pySuffix f1 := by
  refine ⟨?_, rfl⟩
  intro hcol
  have ht1 : t1.data.length = 15 := by
    simp only [isTimestampFormat, Bool.and_eq_true, beq_iff_eq] at h1
    exact h1.1.1.1
  have ht2 : t2.data.length = 15 := by
    simp only [isTimestampFormat, Bool.and_eq_true, beq_iff_eq] at h2
    exact h2.1.1.1
  obtain ⟨hstem, -, hsuf⟩ := staged_name_inj pre f1 f2 t1 t2 ht1 ht2 he hcol
  have hsf : pyStem f1 = pyStem f2 := String.ext hstem
  have hsu : pySuffix f1 = pySuffix f2 := String.ext hsuf
  refine hne ?_
  calc pyName f1 = pyStem f1 ++ pySuffix f1 := (pyStem_append_pySuffix f1).symm
    _ = pyStem f2 ++ pySuffix f2 := by rw [hsf, hsu]
    _ = pyName f2 := pyStem_append_pySuffix f2

/-- Witness for C6 (amended): two distinct basenames with the same
extension staged under the upload prefix never collide, and the staged
name has the composed shape. -/
theorem C6_staging_witness :
    generate_unique_filename "20250101_000000" "a.mp4" "upload_"
      ≠ generate_unique_filename "20250101_000000" "b.mp4" "upload_"
    ∧ generate_unique_filename "20250101_000000" "a.mp4" "upload_"
        = "upload_" ++ pyStem "a.mp4" ++ "_" ++ "20250101_000000" ++ pySuffix "a.mp4" :=
  C6_staging_collision_amended "upload_" "a.mp4" "b.mp4" "20250101_000000"
    "20250101_000000" (by decide) (by decide) (by decide) (by decide)

/-- C6, counterexample to the claim as stated: the distinct filenames
`a_20250606_070809.` (trailing dot, so its suffix is empty and its stem is
the whole name) and `a._20250101_123456` (whose suffix is everything from
the dot on), staged at the realizable timestamps 2025-01-01 12:34:56 and
2025-06-06 07:08:09 respectively, produce the identical staged filename
even though the filenames differ and the timestamps differ. -/
theorem C6_staging_counterexample :
    isTimestampFormat "20250101_123456" = true
    ∧ isTimestampFormat "20250606_070809" = true
    ∧ ("a_20250606_070809." : String) ≠ "a._20250101_123456"
    ∧ generate_unique_filename "20250101_123456" "a_20250606_070809." "upload_"
        = generate_unique_filename "20250606_070809" "a._20250101_123456" "upload_" := by
  decide
